import Mathlib

/-!
Verification of the Mafia-bot game core (role registry, win-condition
evaluator, night/day resolution, role assignment, end-of-game rewards)
against its natural-language specification.  The definitions below are a
shallow embedding of the Python sources: roles.py (RoleManager),
game_manager.py (GameManager) and config.py / player_manager.py (reward
distribution).  Python dicts with a fixed key set are embedded as
structures; dicts possibly missing keys are structures of Option fields;
dict.get with a default becomes Option.getD.
-/

namespace MafiaBot

/-- An ability entry of a role definition, from RoleManager._initialize_roles
in roles.py (fields id, cooldown, uses, passive, restriction). -/
structure Ability where
  id : String
  cooldown : Nat
  uses : Int
  passive : Bool := false
  restriction : Option String := none
deriving Repr, DecidableEq

/-- A role definition as stored in the RoleManager.roles dict.  Every field
is optional so that the empty Python dict (returned by get_role_info for an
unknown id) is representable: it is the record with every field none. -/
structure RoleDict where
  name : Option String := none
  team : Option String := none
  abilities : Option (List Ability) := none
  winCondition : Option String := none
deriving Repr, DecidableEq

/-- The empty Python dict, the default that RoleManager.get_role_info
returns for an unknown role id. -/
def emptyRoleDict : RoleDict := {}

/-- The role registry built by RoleManager._initialize_roles in roles.py:
a dict keyed by role id.  Lookup of a key in a Python dict is embedded as
an if-chain over the seven keys. -/
def rolesTable (r : String) : Option RoleDict :=
  if r = "mafia" then
    some { name := some "Mafia", team := some "mafia",
           abilities := some [⟨"eliminate", 0, -1, false, none⟩],
           winCondition := some "Mafia members equal or outnumber villagers" }
  else if r = "detective" then
    some { name := some "Detective", team := some "villagers",
           abilities := some [⟨"investigate", 0, -1, false, none⟩],
           winCondition := some "Eliminate all Mafia members" }
  else if r = "doctor" then
    some { name := some "Doctor", team := some "villagers",
           abilities := some [⟨"protect", 1, -1, false,
             some "Cannot protect same player twice in a row"⟩],
           winCondition := some "Eliminate all Mafia members" }
  else if r = "villager" then
    some { name := some "Villager", team := some "villagers",
           abilities := some [⟨"vote", 0, -1, false, none⟩],
           winCondition := some "Eliminate all Mafia members" }
  else if r = "vigilante" then
    some { name := some "Vigilante", team := some "villagers",
           abilities := some [⟨"shoot", 2, 2, false, none⟩],
           winCondition := some "Eliminate all Mafia members" }
  else if r = "godfather" then
    some { name := some "Godfather", team := some "mafia",
           abilities := some [⟨"eliminate", 0, -1, false, none⟩,
                              ⟨"disguise", 0, -1, true, none⟩],
           winCondition := some "Mafia members equal or outnumber villagers" }
  else if r = "jester" then
    some { name := some "Jester", team := some "neutral",
           abilities := some [⟨"haunt", 0, 1, false, none⟩],
           winCondition := some "Get eliminated by vote" }
  else none

/-- RoleManager.get_role_info: self.roles.get(role, \x7b\x7d). -/
def get_role_info (r : String) : RoleDict :=
  (rolesTable r).getD emptyRoleDict

/-- RoleManager.get_role_team: role_info.get('team', 'unknown'). -/
def get_role_team (r : String) : String :=
  (get_role_info r).team.getD "unknown"

/-- RoleManager.get_role_abilities: role_info.get('abilities', []). -/
def get_role_abilities (r : String) : List Ability :=
  (get_role_info r).abilities.getD []

/-- RoleManager.is_evil_role: role_info.get('team') in ['mafia', 'neutral']
(a missing team key makes the membership test False). -/
def is_evil_role (r : String) : Bool :=
  match (get_role_info r).team with
  | some t => t == "mafia" || t == "neutral"
  | none => false

/-- A per-game player record, from the dict created in
GameManager.create_game / join_game.  The Python key 'protected' is the
field protectedFlag (protected is a Lean keyword); fields not used by the
resolution logic (items_used, last_protected, votes, investigated) are
omitted. -/
structure Player where
  user_id : Nat
  username : String
  role : String
  alive : Bool
  protectedFlag : Bool
deriving Repr, DecidableEq

/-- The alive-roster filter in GameManager.check_game_end_condition. -/
def alivePlayers (players : List Player) : List Player :=
  players.filter (fun p => p.alive)

/-- Count of alive players on team mafia, from check_game_end_condition. -/
def mafia_alive (players : List Player) : Nat :=
  ((alivePlayers players).filter (fun p => get_role_team p.role == "mafia")).length

/-- Count of alive players on team villagers, from check_game_end_condition. -/
def villagers_alive (players : List Player) : Nat :=
  ((alivePlayers players).filter (fun p => get_role_team p.role == "villagers")).length

/-- GameManager.check_game_end_condition in game_manager.py. -/
def check_game_end_condition (players : List Player) : Bool × Option String :=
  if (alivePlayers players).isEmpty then (true, some "draw")
  else if mafia_alive players = 0 then (true, some "villagers")
  else if villagers_alive players ≤ mafia_alive players then (true, some "mafia")
  else (false, none)

/-- A sample two-player roster: one alive mafia member and one alive
villager, used as a concrete witness input. -/
def parityRoster : List Player :=
  [⟨1, "M", "mafia", true, false⟩, ⟨2, "V", "villager", true, false⟩]

/-- Helper: a roster with an alive player has a nonempty alive filter. -/
theorem alivePlayers_ne_nil {players : List Player} {p : Player}
    (hp : p ∈ players) (ha : p.alive = true) : (alivePlayers players).isEmpty = false := by
  have hmem : p ∈ alivePlayers players := List.mem_filter.mpr ⟨hp, ha⟩
  cases h : alivePlayers players with
  | nil => rw [h] at hmem; cases hmem
  | cons a l => simp [List.isEmpty]

/-- Claim C1, counterexample: on the all-dead (here empty) roster the
evaluator returns winner draw although the mafia-aligned count is zero, so
the claimed equivalence (villagers win iff zero mafia alive) fails there. -/
theorem c1_win_condition_counterexample :
    check_game_end_condition [] = (true, some "draw") ∧
    mafia_alive [] = 0 ∧
    ¬ ((check_game_end_condition []).2 = some "villagers" ↔ mafia_alive [] = 0) := by
  refine ⟨rfl, rfl, ?_⟩
  intro h
  have := h.mpr rfl
  simp [check_game_end_condition, alivePlayers, mafia_alive] at this

/-- Claim C1 (amended: provided at least one player is alive): among alive
players the evaluator counts mafia-team and villagers-team members; it
declares villagers the winner iff the mafia count is zero, otherwise mafia
the winner iff the mafia count is at least the villager count, and
otherwise the game continues. -/
theorem c1_win_condition (players : List Player)
    (h : ∃ p ∈ players, p.alive = true) :
    (check_game_end_condition players = (true, some "villagers") ↔
      mafia_alive players = 0) ∧
    (mafia_alive players ≠ 0 →
      (check_game_end_condition players = (true, some "mafia") ↔
        villagers_alive players ≤ mafia_alive players)) ∧
    (check_game_end_condition players = (false, none) ↔
      (mafia_alive players ≠ 0 ∧ mafia_alive players < villagers_alive players)) := by
  obtain ⟨p, hp, ha⟩ := h
  have hne := alivePlayers_ne_nil hp ha
  unfold check_game_end_condition
  rw [hne]
  simp only [Bool.false_eq_true, if_false]
  by_cases hm : mafia_alive players = 0 <;>
    by_cases hv : villagers_alive players ≤ mafia_alive players <;>
      simp [hm, hv] <;> omega

/-- Witness for claim C1: with one alive mafia member and one alive
villager, mafia is declared the winner (parity favors mafia). -/
theorem c1_win_condition_witness :
    check_game_end_condition parityRoster = (true, some "mafia") := by
  have h := c1_win_condition parityRoster
    ⟨⟨1, "M", "mafia", true, false⟩, by decide, rfl⟩
  exact (h.2.1 (by decide)).mpr (by decide)

/-- A roster consisting of a single dead player, witness input for the
all-dead draw case. -/
def allDeadRoster : List Player :=
  [⟨7, "D", "villager", false, false⟩]

/-- Claim C10: if every player on the roster is dead (including the empty
roster), the win-condition check reports the game ended with winner draw. -/
theorem c10_all_dead_draw (players : List Player)
    (h : ∀ p ∈ players, p.alive = false) :
    check_game_end_condition players = (true, some "draw") := by
  have hempty : alivePlayers players = [] := by
    apply List.filter_eq_nil_iff.mpr
    intro p hp
    simp [h p hp]
  unfold check_game_end_condition
  rw [hempty]
  rfl

/-- Witness for claim C10 at a concrete one-dead-player roster. -/
theorem c10_all_dead_draw_witness :
    check_game_end_condition allDeadRoster = (true, some "draw") :=
  c10_all_dead_draw allDeadRoster (by decide)

/-- The per-round night-action buffer (GameManager.pending_actions entry):
at most one target per action kind. -/
structure NightActions where
  kill : Option Nat := none
  protect : Option Nat := none
  investigate : Option Nat := none
deriving Repr, DecidableEq

/-- The protection reset at the start of _process_night_actions:
player['protected'] = False. -/
def clearProtected (p : Player) : Player := { p with protectedFlag := false }

/-- The protection loop of _process_night_actions: set the protected flag
of the first player whose user_id matches the target, and report whether a
match was found (the Python local variable named protected). -/
def protectFirst (t : Nat) : List Player → List Player × Bool
  | [] => ([], false)
  | p :: ps =>
    if p.user_id = t then ({ p with protectedFlag := true } :: ps, true)
    else
      let r := protectFirst t ps
      (p :: r.1, r.2)

/-- The kill loop of _process_night_actions: on the first player whose
user_id matches, if unprotected set alive false and report the mutated
player as eliminated, otherwise report that the kill was blocked. -/
def killFirst (t : Nat) : List Player → List Player × Option Player × Bool
  | [] => ([], none, false)
  | p :: ps =>
    if p.user_id = t then
      if !p.protectedFlag then
        let q := { p with alive := false }
        (q :: ps, some q, false)
      else (p :: ps, none, true)
    else
      let r := killFirst t ps
      (p :: r.1, r.2.1, r.2.2)

/-- The investigation result computed in _process_night_actions: innocent
by default, innocent for the godfather, mafia for a mafia-team role. -/
def investResultFor (role : String) : String :=
  if role = "godfather" then "innocent"
  else if get_role_team role = "mafia" then "mafia"
  else "innocent"

/-- The investigation loop of _process_night_actions: the first player
whose user_id matches the target, paired with the result string. -/
def investigateFirst (t : Nat) : List Player → Option (Player × String)
  | [] => none
  | p :: ps =>
    if p.user_id = t then some (p, investResultFor p.role)
    else investigateFirst t ps

/-- The outcome of one night resolution: the updated roster, the
eliminated player (if any), whether a protection took effect (the Python
local variable named protected), and the investigation result. -/
structure NightOutcome where
  players : List Player
  eliminated : Option Player
  wasProtected : Bool
  investigation : Option (Player × String)
deriving Repr, DecidableEq

/-- The protect step guarded by Python truthiness: if protect_target: is
false both for None and for the integer 0. -/
def protectStage (t : Option Nat) (ps : List Player) : List Player × Bool :=
  match t with
  | some n => if n != 0 then protectFirst n ps else (ps, false)
  | none => (ps, false)

/-- The kill step guarded by Python truthiness (if kill_target:). -/
def killStage (t : Option Nat) (ps : List Player) : List Player × Option Player × Bool :=
  match t with
  | some n => if n != 0 then killFirst n ps else (ps, none, false)
  | none => (ps, none, false)

/-- The investigation step guarded by Python truthiness
(if investigate_target:). -/
def investStage (t : Option Nat) (ps : List Player) : Option (Player × String) :=
  match t with
  | some n => if n != 0 then investigateFirst n ps else none
  | none => none

/-- The pure core of GameManager._process_night_actions: reset every
protected flag, then process protect, kill and investigate in that
order, each on the roster produced by the previous step. -/
def processNightActions (players : List Player) (acts : NightActions) : NightOutcome :=
  { players := (killStage acts.kill (protectStage acts.protect (players.map clearProtected)).1).1,
    eliminated := (killStage acts.kill (protectStage acts.protect (players.map clearProtected)).1).2.1,
    wasProtected := (protectStage acts.protect (players.map clearProtected)).2 ||
      (killStage acts.kill (protectStage acts.protect (players.map clearProtected)).1).2.2,
    investigation := investStage acts.investigate
      (killStage acts.kill (protectStage acts.protect (players.map clearProtected)).1).1 }

/-- Observation of a player that night resolution may not invent: the pair
of user id and alive flag. -/
def idAliveOf (p : Player) : Nat × Bool := (p.user_id, p.alive)

theorem map_clearProtected_idAlive (ps : List Player) :
    (ps.map clearProtected).map idAliveOf = ps.map idAliveOf := by
  rw [List.map_map]
  exact List.map_congr_left (fun p _ => rfl)

theorem protectFirst_fst_idAlive (t : Nat) (ps : List Player) :
    ((protectFirst t ps).1).map idAliveOf = ps.map idAliveOf := by
  induction ps with
  | nil => rfl
  | cons p ps ih =>
    by_cases h : p.user_id = t <;> simp [protectFirst, h, ih, idAliveOf]

theorem mem_map_user_id_of_tail {t : Nat} {p : Player} {ps : List Player}
    (h : t ∈ (p :: ps).map Player.user_id) (hp : p.user_id ≠ t) :
    t ∈ ps.map Player.user_id := by
  simp only [List.map_cons, List.mem_cons] at h
  rcases h with h1 | h1
  · exact absurd h1.symm hp
  · exact h1

theorem protectFirst_found (t : Nat) (ps : List Player)
    (h : t ∈ ps.map Player.user_id) : (protectFirst t ps).2 = true := by
  induction ps with
  | nil => cases h
  | cons p ps ih =>
    by_cases hp : p.user_id = t
    · simp [protectFirst, hp]
    · simp [protectFirst, hp, ih (mem_map_user_id_of_tail h hp)]

/-- After the protect loop has marked the first player with the target id,
the kill loop on the same id finds that player protected and is blocked. -/
theorem killFirst_protectFirst (t : Nat) (ps : List Player)
    (h : t ∈ ps.map Player.user_id) :
    killFirst t (protectFirst t ps).1 = ((protectFirst t ps).1, none, true) := by
  induction ps with
  | nil => cases h
  | cons p ps ih =>
    by_cases hp : p.user_id = t
    · simp [protectFirst, hp, killFirst]
    · simp [protectFirst, hp, killFirst, ih (mem_map_user_id_of_tail h hp)]

/-- Claim C3: if protect and kill both target the same roster player X (a
real, nonzero Telegram user id) in one night, then no alive flag changes
(in particular X, alive before, is alive after), nobody is reported
eliminated, and the outcome reports that the protection took effect.
Moreover protection flags are cleared at the start of night resolution, so
resolution never depends on protection left over from earlier rounds. -/
theorem c3_protection_negates_kill (players : List Player) (X : Player)
    (hmem : X ∈ players) (hid : X.user_id ≠ 0) (halive : X.alive = true) :
    ((processNightActions players
        ⟨some X.user_id, some X.user_id, none⟩).players.map idAliveOf =
      players.map idAliveOf ∧
     (processNightActions players
        ⟨some X.user_id, some X.user_id, none⟩).eliminated = none ∧
     (processNightActions players
        ⟨some X.user_id, some X.user_id, none⟩).wasProtected = true ∧
     ∃ p ∈ (processNightActions players
        ⟨some X.user_id, some X.user_id, none⟩).players,
       p.user_id = X.user_id ∧ p.alive = true) ∧
    (∀ (ps : List Player) (acts : NightActions),
      processNightActions (ps.map clearProtected) acts =
        processNightActions ps acts) := by
  have hcc : clearProtected ∘ clearProtected = clearProtected :=
    funext (fun p => rfl)
  have hclear : ∀ ps : List Player,
      (ps.map clearProtected).map clearProtected = ps.map clearProtected := by
    intro ps; rw [List.map_map, hcc]
  refine ⟨?_, ?_⟩
  · have hbne : (X.user_id != 0) = true := by
      simp [bne_iff_ne, hid]
    have hids : X.user_id ∈ (players.map clearProtected).map Player.user_id := by
      refine List.mem_map.mpr ⟨clearProtected X, List.mem_map.mpr ⟨X, hmem, rfl⟩, rfl⟩
    have hkill := killFirst_protectFirst X.user_id (players.map clearProtected) hids
    have hpairs : ((protectFirst X.user_id (players.map clearProtected)).1).map idAliveOf =
        players.map idAliveOf := by
      rw [protectFirst_fst_idAlive, map_clearProtected_idAlive]
    have hpr : protectStage (some X.user_id) (players.map clearProtected) =
        protectFirst X.user_id (players.map clearProtected) := by
      simp only [protectStage, if_pos hbne]
    have hki : killStage (some X.user_id)
        (protectFirst X.user_id (players.map clearProtected)).1 =
        ((protectFirst X.user_id (players.map clearProtected)).1, none, true) := by
      simp only [killStage, if_pos hbne]
      exact hkill
    have houtcome : processNightActions players ⟨some X.user_id, some X.user_id, none⟩ =
        { players := (protectFirst X.user_id (players.map clearProtected)).1,
          eliminated := none,
          wasProtected := (protectFirst X.user_id (players.map clearProtected)).2 || true,
          investigation := none } := by
      unfold processNightActions
      dsimp only
      rw [hpr, hki]
      rfl
    refine ⟨?_, ?_, ?_, ?_⟩
    · rw [houtcome]; exact hpairs
    · rw [houtcome]
    · rw [houtcome]; simp
    · have hXpair : idAliveOf X ∈
          (processNightActions players ⟨some X.user_id, some X.user_id, none⟩).players.map idAliveOf := by
        rw [houtcome]
        rw [hpairs]
        exact List.mem_map.mpr ⟨X, hmem, rfl⟩
      rcases List.mem_map.mp hXpair with ⟨p, hp, hpeq⟩
      refine ⟨p, hp, ?_, ?_⟩
      · have := congrArg Prod.fst hpeq
        simpa [idAliveOf] using this
      · have := congrArg Prod.snd hpeq
        simp [idAliveOf] at this
        rw [this, halive]
  · intro ps acts
    simp only [processNightActions, hclear]

/-- A concrete singleton roster with one alive villager, witness input for
the protection claim. -/
def soloRoster : List Player := [⟨1, "A", "villager", true, false⟩]

/-- Witness for claim C3 at a concrete one-player roster: protect and kill
both target player 1; nobody is eliminated and the protection is
reported. -/
theorem c3_protection_negates_kill_witness :
    (processNightActions soloRoster ⟨some 1, some 1, none⟩).eliminated = none ∧
    (processNightActions soloRoster ⟨some 1, some 1, none⟩).wasProtected = true := by
  have h := c3_protection_negates_kill soloRoster ⟨1, "A", "villager", true, false⟩
    (by decide) (by decide) rfl
  exact ⟨h.1.2.1, h.1.2.2.1⟩

/-- Whether a role is flagged disguised: its registry entry carries an
ability with id disguise (only the godfather does). -/
def hasDisguiseAbility (r : String) : Bool :=
  (get_role_abilities r).any (fun a => a.id == "disguise")

/-- Modelled from the spec wording of the investigation rule: a disguised
role always reads innocent, otherwise the result is mafia iff the target
team is mafia, else innocent.  Stated separately so the code's
investResultFor (which tests the literal role id godfather) can be proved
to refine it. -/
def specInvestigationResult (r : String) : String :=
  if hasDisguiseAbility r then "innocent"
  else if get_role_team r = "mafia" then "mafia"
  else "innocent"

theorem hasDisguiseAbility_eq_godfather (r : String) :
    hasDisguiseAbility r = (r == "godfather") := by
  unfold hasDisguiseAbility get_role_abilities get_role_info rolesTable
  split_ifs with h1 h2 h3 h4 h5 h6 h7 <;> simp_all [emptyRoleDict]

theorem investigateFirst_result (t : Nat) (ps : List Player) (p : Player)
    (r : String) (h : investigateFirst t ps = some (p, r)) :
    r = investResultFor p.role := by
  induction ps with
  | nil => cases h
  | cons q ps ih =>
    by_cases hq : q.user_id = t
    · simp [investigateFirst, hq] at h
      rcases h with ⟨hp, hr⟩
      rw [← hp, hr]
    · simp [investigateFirst, hq] at h
      exact ih h

/-- Claim C4: the investigation result computed by night resolution equals
the spec rule — innocent whenever the target role is flagged disguised
(and such a role is indeed mafia-team), otherwise mafia iff the target
team is mafia, else innocent — and every investigation result the resolver
reports is this function of the investigated player's role. -/
theorem c4_disguise_invariant :
    (∀ role : String,
      investResultFor role = specInvestigationResult role ∧
      (hasDisguiseAbility role = true → get_role_team role = "mafia")) ∧
    (∀ (players : List Player) (acts : NightActions) (p : Player) (r : String),
      (processNightActions players acts).investigation = some (p, r) →
      r = investResultFor p.role) := by
  constructor
  · intro role
    by_cases h : role = "godfather"
    · subst h
      exact ⟨by decide, fun _ => by decide⟩
    · have hd : hasDisguiseAbility role = false := by
        rw [hasDisguiseAbility_eq_godfather]
        simp [h]
      constructor
      · unfold investResultFor specInvestigationResult
        rw [hd]
        simp [h]
      · intro hcontra
        rw [hd] at hcontra
        cases hcontra
  · intro players acts p r h
    rcases hacts : acts.investigate with _ | t
    · simp [processNightActions, hacts, investStage] at h
    · simp only [processNightActions, hacts, investStage] at h
      by_cases ht : (t != 0) = true
      · rw [if_pos ht] at h
        exact investigateFirst_result t _ p r h
      · rw [if_neg ht] at h
        cases h

/-- Witness for claim C4: the godfather is disguised and mafia-team, yet
investigating a concrete godfather player yields innocent through the
resolver. -/
theorem c4_disguise_invariant_witness :
    get_role_team "godfather" = "mafia" ∧
    investResultFor "godfather" = specInvestigationResult "godfather" ∧
    ((processNightActions [⟨3, "G", "godfather", true, false⟩]
        ⟨none, none, some 3⟩).investigation =
      some (⟨3, "G", "godfather", true, false⟩, "innocent") →
      "innocent" = investResultFor "godfather") := by
  refine ⟨(c4_disguise_invariant.1 "godfather").2 (by decide),
          (c4_disguise_invariant.1 "godfather").1, ?_⟩
  intro h
  exact c4_disguise_invariant.2 [⟨3, "G", "godfather", true, false⟩]
    ⟨none, none, some 3⟩ ⟨3, "G", "godfather", true, false⟩ "innocent" h

/-- A roster whose only member is already dead, used to exhibit the
missing liveness checks of the night resolver. -/
def deadRoster : List Player := [⟨2, "B", "villager", false, false⟩]

/-- Claim C5, counterexample: the night resolver has no liveness check.
A protect action targeting the dead player 2 sets their protected flag
(and reports the protection), and a kill action targeting the same dead
player reports them eliminated again — contradicting the claim that
non-living targets are silently ignored for the kill and protect kinds. -/
theorem c5_dead_target_counterexample :
    deadRoster.map Player.alive = [false] ∧
    (processNightActions deadRoster ⟨none, some 2, none⟩).players.map
      Player.protectedFlag = [true] ∧
    (processNightActions deadRoster ⟨none, some 2, none⟩).wasProtected = true ∧
    (processNightActions deadRoster ⟨some 2, none, none⟩).eliminated =
      some ⟨2, "B", "villager", false, false⟩ ∧
    (processNightActions deadRoster ⟨none, none, some 2⟩).investigation =
      some (⟨2, "B", "villager", false, false⟩, "innocent") := by
  refine ⟨rfl, ?_, ?_, ?_, ?_⟩ <;> decide

/-- The target lookup performed at action-submission time in
GameManager.handle_action: the first roster player with the requested
username who is alive. -/
def findTargetByUsername (players : List Player) (uname : String) : Option Player :=
  players.find? (fun p => p.username == uname && p.alive)

/-- The recording step of GameManager.handle_action: on a successful
lookup the pending buffer's slot for the action kind is overwritten with
the target's user id; on a failed lookup nothing is recorded. -/
def recordNightAction (players : List Player) (pending : NightActions)
    (kind : String) (uname : String) : NightActions :=
  match findTargetByUsername players uname with
  | some tp =>
    if kind = "kill" then { pending with kill := some tp.user_id }
    else if kind = "protect" then { pending with protect := some tp.user_id }
    else if kind = "investigate" then { pending with investigate := some tp.user_id }
    else pending
  | none => pending

theorem protectFirst_not_found (t : Nat) (ps : List Player)
    (h : t ∉ ps.map Player.user_id) : protectFirst t ps = (ps, false) := by
  induction ps with
  | nil => rfl
  | cons p ps ih =>
    have hp : p.user_id ≠ t := fun he => h (by simp [he])
    have ht : t ∉ ps.map Player.user_id := fun hm => h (by simp; right; simpa using hm)
    simp [protectFirst, hp, ih ht]

theorem killFirst_not_found (t : Nat) (ps : List Player)
    (h : t ∉ ps.map Player.user_id) : killFirst t ps = (ps, none, false) := by
  induction ps with
  | nil => rfl
  | cons p ps ih =>
    have hp : p.user_id ≠ t := fun he => h (by simp [he])
    have ht : t ∉ ps.map Player.user_id := fun hm => h (by simp; right; simpa using hm)
    simp [killFirst, hp, ih ht]

theorem investigateFirst_not_found (t : Nat) (ps : List Player)
    (h : t ∉ ps.map Player.user_id) : investigateFirst t ps = none := by
  induction ps with
  | nil => rfl
  | cons p ps ih =>
    have hp : p.user_id ≠ t := fun he => h (by simp [he])
    have ht : t ∉ ps.map Player.user_id := fun hm => h (by simp; right; simpa using hm)
    simp [investigateFirst, hp, ih ht]

theorem map_user_id_clearProtected (ps : List Player) :
    (ps.map clearProtected).map Player.user_id = ps.map Player.user_id := by
  rw [List.map_map]
  exact List.map_congr_left (fun p _ => rfl)

theorem protectFirst_fst_map_user_id (t : Nat) (ps : List Player) :
    ((protectFirst t ps).1).map Player.user_id = ps.map Player.user_id := by
  induction ps with
  | nil => rfl
  | cons p ps ih =>
    by_cases h : p.user_id = t <;> simp [protectFirst, h, ih]

theorem killFirst_fst_map_user_id (t : Nat) (ps : List Player) :
    ((killFirst t ps).1).map Player.user_id = ps.map Player.user_id := by
  induction ps with
  | nil => rfl
  | cons p ps ih =>
    by_cases h : p.user_id = t
    · by_cases hpr : p.protectedFlag <;> simp [killFirst, h, hpr]
    · simp [killFirst, h, ih]

theorem protectStage_fst_map_user_id (t : Option Nat) (ps : List Player) :
    ((protectStage t ps).1).map Player.user_id = ps.map Player.user_id := by
  cases t with
  | none => rfl
  | some n =>
    by_cases h : (n != 0) = true <;>
      simp [protectStage, h, protectFirst_fst_map_user_id]

theorem killStage_fst_map_user_id (t : Option Nat) (ps : List Player) :
    ((killStage t ps).1).map Player.user_id = ps.map Player.user_id := by
  cases t with
  | none => rfl
  | some n =>
    by_cases h : (n != 0) = true <;>
      simp [killStage, h, killFirst_fst_map_user_id]

theorem protectStage_skip (t : Option Nat) (ps : List Player)
    (h : ∀ n, t = some n → n ∉ ps.map Player.user_id) :
    protectStage t ps = (ps, false) := by
  cases t with
  | none => rfl
  | some n =>
    by_cases hb : (n != 0) = true
    · simp [protectStage, hb, protectFirst_not_found n ps (h n rfl)]
    · simp [protectStage, hb]

theorem killStage_skip (t : Option Nat) (ps : List Player)
    (h : ∀ n, t = some n → n ∉ ps.map Player.user_id) :
    killStage t ps = (ps, none, false) := by
  cases t with
  | none => rfl
  | some n =>
    by_cases hb : (n != 0) = true
    · simp [killStage, hb, killFirst_not_found n ps (h n rfl)]
    · simp [killStage, hb]

theorem investStage_skip (t : Option Nat) (ps : List Player)
    (h : ∀ n, t = some n → n ∉ ps.map Player.user_id) :
    investStage t ps = none := by
  cases t with
  | none => rfl
  | some n =>
    by_cases hb : (n != 0) = true
    · simp [investStage, hb, investigateFirst_not_found n ps (h n rfl)]
    · simp [investStage, hb]

/-- Claim C5 (amended): a submitted target id that matches no roster
player at all is silently ignored for its action kind — resolution
proceeds exactly as if that action had not been submitted — and causes no
failure; liveness of the target, however, is not checked by the resolver
but enforced at submission time, where handle_action refuses to record an
action against a username with no living holder. -/
theorem c5_unknown_target_ignored (players : List Player) (acts : NightActions) :
    (∀ t, acts.kill = some t → t ∉ players.map Player.user_id →
      processNightActions players acts =
        processNightActions players { acts with kill := none }) ∧
    (∀ t, acts.protect = some t → t ∉ players.map Player.user_id →
      processNightActions players acts =
        processNightActions players { acts with protect := none }) ∧
    (∀ t, acts.investigate = some t → t ∉ players.map Player.user_id →
      processNightActions players acts =
        processNightActions players { acts with investigate := none }) ∧
    (∀ (pending : NightActions) (kind uname : String),
      (∀ p ∈ players, ¬(p.username = uname ∧ p.alive = true)) →
      recordNightAction players pending kind uname = pending) := by
  refine ⟨?_, ?_, ?_, ?_⟩
  · intro t hk ht
    have e1 : killStage acts.kill
        (protectStage acts.protect (players.map clearProtected)).1 =
        ((protectStage acts.protect (players.map clearProtected)).1, none, false) := by
      apply killStage_skip
      intro n hn
      rw [hk] at hn
      injection hn with hn
      subst hn
      rw [protectStage_fst_map_user_id, map_user_id_clearProtected]
      exact ht
    unfold processNightActions
    dsimp only
    rw [e1]
    rfl
  · intro t hp ht
    have e1 : protectStage acts.protect (players.map clearProtected) =
        (players.map clearProtected, false) := by
      apply protectStage_skip
      intro n hn
      rw [hp] at hn
      injection hn with hn
      subst hn
      rw [map_user_id_clearProtected]
      exact ht
    unfold processNightActions
    dsimp only
    rw [e1]
    rfl
  · intro t hi ht
    have e1 : investStage acts.investigate
        (killStage acts.kill
          (protectStage acts.protect (players.map clearProtected)).1).1 = none := by
      apply investStage_skip
      intro n hn
      rw [hi] at hn
      injection hn with hn
      subst hn
      rw [killStage_fst_map_user_id, protectStage_fst_map_user_id,
        map_user_id_clearProtected]
      exact ht
    unfold processNightActions
    dsimp only
    rw [e1]
    rfl
  · intro pending kind uname hnone
    have hfind : findTargetByUsername players uname = none := by
      unfold findTargetByUsername
      apply List.find?_eq_none.mpr
      intro p hp
      have := hnone p hp
      intro hcontra
      simp at hcontra
      exact this ⟨hcontra.1, hcontra.2⟩
    unfold recordNightAction
    rw [hfind]

/-- Witness for claim C5 (amended): on the singleton roster of player 1, a
kill submitted for the unknown id 99 resolves exactly like no kill at all,
and an action naming a username with no living holder records nothing. -/
theorem c5_unknown_target_ignored_witness :
    processNightActions soloRoster ⟨some 99, none, none⟩ =
      processNightActions soloRoster ⟨none, none, none⟩ ∧
    recordNightAction soloRoster ⟨none, none, none⟩ "kill" "ghost" =
      ⟨none, none, none⟩ := by
  have h := c5_unknown_target_ignored soloRoster ⟨some 99, none, none⟩
  exact ⟨h.1 99 rfl (by decide), (c5_unknown_target_ignored soloRoster
    ⟨none, none, none⟩).2.2.2 ⟨none, none, none⟩ "kill" "ghost" (by decide)⟩

/-- One recorded day vote value: the sentinel skip, or a target user id
(GameManager.handle_vote stores either 'skip' or an int user id). -/
inductive VoteVal where
  | skip
  | target (id : Nat)
deriving Repr, DecidableEq

/-- Incrementing one key of the vote_counts dict, embedded as an
association list in key-insertion order. -/
def bump (t : Nat) : List (Nat × Nat) → List (Nat × Nat)
  | [] => [(t, 1)]
  | (k, c) :: rest => if k = t then (k, c + 1) :: rest else (k, c) :: bump t rest

/-- One iteration of the tally loop in _process_day_votes: skip entries
are passed over, a target increments its count. -/
def tallyStep (acc : List (Nat × Nat)) (v : VoteVal) : List (Nat × Nat) :=
  match v with
  | .skip => acc
  | .target t => bump t acc

/-- The vote_counts dict built by _process_day_votes from the values of
the day_votes buffer, in submission order. -/
def voteCounts (vs : List VoteVal) : List (Nat × Nat) :=
  vs.foldl tallyStep []

/-- The sorted(vote_counts.items(), key=count, reverse=True) call of
_process_day_votes. -/
def sortVotes (counts : List (Nat × Nat)) : List (Nat × Nat) :=
  counts.mergeSort (fun a b => decide (b.2 ≤ a.2))

/-- The elimination loop of _process_day_votes: set the alive flag of the
first player whose user_id matches and report that player as
eliminated. -/
def elimFirst (t : Nat) : List Player → List Player × Option Player
  | [] => ([], none)
  | p :: ps =>
    if p.user_id = t then
      ({ p with alive := false } :: ps, some { p with alive := false })
    else
      let r := elimFirst t ps
      (p :: r.1, r.2)

/-- The pure core of GameManager._process_day_votes: with no votes at all
or only skips, nothing happens; otherwise sort the tally by count
descending, a tie between the top two entries eliminates nobody, and
otherwise the top entry's target is eliminated. -/
def processDayVotes (players : List Player) (votes : List VoteVal) :
    List Player × Option Player :=
  if votes.isEmpty then (players, none)
  else if (voteCounts votes).isEmpty then (players, none)
  else
    match sortVotes (voteCounts votes) with
    | [] => (players, none)
    | [x] => elimFirst x.1 players
    | x :: y :: _ => if x.2 = y.2 then (players, none) else elimFirst x.1 players

/-- The maximal vote count occurring in a tally. -/
def maxCount (counts : List (Nat × Nat)) : Nat :=
  (counts.map Prod.snd).foldr max 0

theorem le_maxCount {kc : Nat × Nat} {l : List (Nat × Nat)} (h : kc ∈ l) :
    kc.2 ≤ maxCount l := by
  induction l with
  | nil => cases h
  | cons a l ih =>
    rcases List.mem_cons.mp h with h1 | h1
    · subst h1
      exact Nat.le_max_left _ _
    · exact Nat.le_trans (ih h1) (Nat.le_max_right _ _)

theorem maxCount_le {l : List (Nat × Nat)} {c : Nat}
    (h : ∀ kc ∈ l, kc.2 ≤ c) : maxCount l ≤ c := by
  induction l with
  | nil => exact Nat.zero_le c
  | cons a l ih =>
    have : maxCount (a :: l) = max a.2 (maxCount l) := rfl
    rw [this]
    exact Nat.max_le.mpr ⟨h a (List.mem_cons_self a l), ih (fun kc hkc => h kc (List.mem_cons_of_mem a hkc))⟩

theorem sortVotes_perm (counts : List (Nat × Nat)) :
    (sortVotes counts).Perm counts :=
  List.mergeSort_perm counts _

theorem sortVotes_sorted (counts : List (Nat × Nat)) :
    (sortVotes counts).Pairwise (fun a b => b.2 ≤ a.2) := by
  have h := @List.sorted_mergeSort (Nat × Nat)
    (fun a b => decide (b.2 ≤ a.2))
    (by
      intro a b c h1 h2
      simp only [decide_eq_true_eq] at h1 h2 ⊢
      omega)
    (by
      intro a b
      rcases Nat.le_total b.2 a.2 with h | h <;> simp [h])
    counts
  exact h.imp (fun hab => of_decide_eq_true hab)

/-- The head of the sorted tally attains the maximal count. -/
theorem sortVotes_head_max {counts : List (Nat × Nat)} {x : Nat × Nat}
    {rest : List (Nat × Nat)} (h : sortVotes counts = x :: rest) :
    maxCount counts = x.2 ∧ ∀ kc ∈ rest, kc.2 ≤ x.2 := by
  have hsorted := sortVotes_sorted counts
  rw [h] at hsorted
  have hrest : ∀ kc ∈ rest, kc.2 ≤ x.2 :=
    fun kc hkc => (List.pairwise_cons.mp hsorted).1 kc hkc
  have hperm := sortVotes_perm counts
  rw [h] at hperm
  have hxmem : x ∈ counts := hperm.mem_iff.mp (List.mem_cons_self x rest)
  refine ⟨Nat.le_antisymm ?_ (le_maxCount hxmem), hrest⟩
  apply maxCount_le
  intro kc hkc
  rcases List.mem_cons.mp (hperm.mem_iff.mpr hkc) with h1 | h1
  · subst h1; exact Nat.le_refl _
  · exact hrest kc h1

theorem elimFirst_eq (t : Nat) (players : List Player)
    (hnodup : (players.map Player.user_id).Nodup) :
    elimFirst t players =
      (players.map (fun p => if p.user_id = t then { p with alive := false } else p),
       (players.find? (fun p => p.user_id == t)).map
         (fun p => { p with alive := false })) := by
  induction players with
  | nil => rfl
  | cons p ps ih =>
    rw [List.map_cons, List.nodup_cons] at hnodup
    by_cases h : p.user_id = t
    · have htail : ps.map (fun q => if q.user_id = t then { q with alive := false } else q)
          = ps := by
        have hcong : ∀ q ∈ ps,
            (if q.user_id = t then { q with alive := false } else q) = q := by
          intro q hq
          rw [if_neg]
          intro he
          exact hnodup.1 (List.mem_map.mpr ⟨q, hq, by rw [he, ← h]⟩)
        rw [List.map_congr_left hcong]
        simp
      have hb : (p.user_id == t) = true := beq_iff_eq.mpr h
      simp [elimFirst, h, htail, List.find?, hb]
    · have ihh := ih hnodup.2
      have hb : (p.user_id == t) = false := beq_eq_false_iff_ne.mpr h
      simp [elimFirst, h, ihh, List.find?, hb]

theorem elimFirst_snd_mem (t : Nat) (ps : List Player) (p : Player)
    (h : (elimFirst t ps).2 = some p) :
    ∃ q ∈ ps, p = { q with alive := false } := by
  induction ps with
  | nil => cases h
  | cons q ps ih =>
    by_cases hq : q.user_id = t
    · simp [elimFirst, hq] at h
      refine ⟨q, List.mem_cons_self q ps, ?_⟩
      simp [hq]
      exact h.symm
    · simp [elimFirst, hq] at h
      rcases ih h with ⟨q', hq', he⟩
      exact ⟨q', List.mem_cons_of_mem q hq', he⟩

/-- Claim C2: with no non-abstain votes nothing happens; if at least two
tally entries attain the maximal vote count (the top two sorted targets
are tied) nobody is eliminated; otherwise the unique top-voted target — a
roster player, rosters having distinct user ids — is the one eliminated:
exactly their alive flag is set to false and they are reported
eliminated. -/
theorem c2_day_vote_resolution (players : List Player) (votes : List VoteVal)
    (hnodup : (players.map Player.user_id).Nodup) :
    (voteCounts votes = [] → processDayVotes players votes = (players, none)) ∧
    (2 ≤ ((voteCounts votes).filter
        (fun kc => kc.2 == maxCount (voteCounts votes))).length →
      processDayVotes players votes = (players, none)) ∧
    (∀ k ∈ voteCounts votes,
      ((voteCounts votes).filter
        (fun kc => kc.2 == maxCount (voteCounts votes))).length = 1 →
      k.2 = maxCount (voteCounts votes) →
      k.1 ∈ players.map Player.user_id →
      processDayVotes players votes =
        (players.map (fun p => if p.user_id = k.1 then { p with alive := false } else p),
         (players.find? (fun p => p.user_id == k.1)).map
           (fun p => { p with alive := false }))) := by
  by_cases hv : votes = []
  · subst hv
    refine ⟨fun _ => rfl, ?_, ?_⟩
    · intro h2
      simp [voteCounts] at h2
    · intro k hk
      simp [voteCounts] at hk
  · have hve : votes.isEmpty = false := by
      cases votes with
      | nil => exact absurd rfl hv
      | cons a l => rfl
    refine ⟨?_, ?_, ?_⟩
    · intro hc
      simp [processDayVotes, hve, hc]
    · intro h2
      have hcne : voteCounts votes ≠ [] := by
        intro hc
        rw [hc] at h2
        simp at h2
      have hce : (voteCounts votes).isEmpty = false := by
        rcases hl : voteCounts votes with _ | ⟨a, l⟩
        · exact absurd hl hcne
        · rfl
      rcases hs : sortVotes (voteCounts votes) with _ | ⟨x, rest⟩
      · exfalso
        have := (sortVotes_perm (voteCounts votes))
        rw [hs] at this
        exact hcne this.symm.eq_nil
      · rcases rest with _ | ⟨y, rest'⟩
        · exfalso
          have hpf := ((sortVotes_perm (voteCounts votes)).filter
            (fun kc => kc.2 == maxCount (voteCounts votes))).length_eq
          rw [hs] at hpf
          have hle := List.length_filter_le
            (fun kc => kc.2 == maxCount (voteCounts votes)) [x]
          simp only [List.length_singleton] at hle
          omega
        · have hhead := sortVotes_head_max hs
          by_cases hxy : x.2 = y.2
          · simp [processDayVotes, hve, hce, hs, hxy]
          · exfalso
            have hsorted := sortVotes_sorted (voteCounts votes)
            rw [hs] at hsorted
            have hx_ge : ∀ b ∈ y :: rest', b.2 ≤ x.2 :=
              (List.pairwise_cons.mp hsorted).1
            have hy_ge : ∀ b ∈ rest', b.2 ≤ y.2 :=
              (List.pairwise_cons.mp (List.pairwise_cons.mp hsorted).2).1
            have hylt : y.2 < x.2 :=
              Nat.lt_of_le_of_ne (hx_ge y (List.mem_cons_self y rest'))
                (fun he => hxy he.symm)
            have hfilter_tail : (y :: rest').filter
                (fun kc => kc.2 == maxCount (voteCounts votes)) = [] := by
              apply List.filter_eq_nil_iff.mpr
              intro kc hkc
              have hklt : kc.2 < x.2 := by
                rcases List.mem_cons.mp hkc with h | h
                · exact h ▸ hylt
                · exact Nat.lt_of_le_of_lt (hy_ge kc h) hylt
              simp only [hhead.1]
              exact fun hcontra =>
                Nat.ne_of_lt hklt (by exact_mod_cast of_decide_eq_true (by exact_mod_cast hcontra))
            have hxpred : (x.2 == maxCount (voteCounts votes)) = true :=
              beq_iff_eq.mpr hhead.1.symm
            have hfc : (x :: y :: rest').filter
                (fun kc => kc.2 == maxCount (voteCounts votes)) = [x] := by
              rw [List.filter_cons_of_pos]
              · rw [hfilter_tail]
              · exact hxpred
            have hpf := ((sortVotes_perm (voteCounts votes)).filter
              (fun kc => kc.2 == maxCount (voteCounts votes))).length_eq
            rw [hs, hfc] at hpf
            simp only [List.length_singleton] at hpf
            omega
    · intro k hk h1 hk2 hkmem
      have hcne : voteCounts votes ≠ [] := by
        intro hc
        rw [hc] at hk
        cases hk
      have hce : (voteCounts votes).isEmpty = false := by
        rcases hl : voteCounts votes with _ | ⟨a, l⟩
        · exact absurd hl hcne
        · rfl
      rcases hs : sortVotes (voteCounts votes) with _ | ⟨x, rest⟩
      · exfalso
        have := (sortVotes_perm (voteCounts votes))
        rw [hs] at this
        exact hcne this.symm.eq_nil
      · have hhead := sortVotes_head_max hs
        have hxpred : (x.2 == maxCount (voteCounts votes)) = true :=
          beq_iff_eq.mpr hhead.1.symm
        have hkf : k ∈ (voteCounts votes).filter
            (fun kc => kc.2 == maxCount (voteCounts votes)) :=
          List.mem_filter.mpr ⟨hk, beq_iff_eq.mpr hk2⟩
        have hpffilter := (sortVotes_perm (voteCounts votes)).filter
          (fun kc => kc.2 == maxCount (voteCounts votes))
        rw [hs, @List.filter_cons_of_pos (Nat × Nat)
          (fun kc => kc.2 == maxCount (voteCounts votes)) x rest hxpred] at hpffilter
        have hlen := hpffilter.length_eq
        rw [h1] at hlen
        have hrest_nil : rest.filter
            (fun kc => kc.2 == maxCount (voteCounts votes)) = [] := by
          apply List.length_eq_zero.mp
          simp only [List.length_cons] at hlen
          omega
        have hkx : k = x := by
          have hmem := hpffilter.mem_iff.mpr hkf
          rcases List.mem_cons.mp hmem with h | h
          · exact h
          · rw [hrest_nil] at h
            cases h
        subst hkx
        rcases rest with _ | ⟨y, rest'⟩
        · have hout : processDayVotes players votes = elimFirst k.1 players := by
            simp [processDayVotes, hve, hce, hs]
          rw [hout]
          exact elimFirst_eq k.1 players hnodup
        · have hypred : (y.2 == maxCount (voteCounts votes)) = false := by
            rcases hb : (y.2 == maxCount (voteCounts votes)) with _ | _
            · rfl
            · exfalso
              have : y ∈ (y :: rest').filter
                  (fun kc => kc.2 == maxCount (voteCounts votes)) :=
                List.mem_filter.mpr ⟨List.mem_cons_self y rest', hb⟩
              rw [hrest_nil] at this
              cases this
          have hxy : ¬ k.2 = y.2 := by
            intro he
            have hne : y.2 ≠ maxCount (voteCounts votes) :=
              beq_eq_false_iff_ne.mp hypred
            exact hne (by rw [← he]; exact hk2)
          have hout : processDayVotes players votes = elimFirst k.1 players := by
            simp [processDayVotes, hve, hce, hs, hxy]
          rw [hout]
          exact elimFirst_eq k.1 players hnodup

/-- A two-player roster with distinct user ids, both alive. -/
def pairRoster : List Player :=
  [⟨1, "A", "villager", true, false⟩, ⟨2, "B", "villager", true, false⟩]

/-- Witness for claim C2: votes A, A, B eliminate exactly player 1. -/
theorem c2_day_vote_resolution_witness :
    processDayVotes pairRoster
      [VoteVal.target 1, VoteVal.target 1, VoteVal.target 2] =
      ([⟨1, "A", "villager", false, false⟩, ⟨2, "B", "villager", true, false⟩],
       some ⟨1, "A", "villager", false, false⟩) := by
  have h := (c2_day_vote_resolution pairRoster
    [VoteVal.target 1, VoteVal.target 1, VoteVal.target 2] (by decide)).2.2
    (1, 2) (by decide) (by decide) (by decide) (by decide)
  rw [h]
  decide

/-- A roster with one alive player (id 1) and one dead player (id 2). -/
def mixedRoster : List Player :=
  [⟨1, "A", "villager", true, false⟩, ⟨2, "B", "villager", false, false⟩]

/-- Claim C6, counterexample: _process_day_votes does not drop a vote for
a dead player before tallying.  A single vote for the dead player 2 is
counted (tally entry (2, 1)) and makes that dead player the top target,
so the resolver reports them eliminated. -/
theorem c6_dead_vote_counterexample :
    voteCounts [VoteVal.target 2] = [(2, 1)] ∧
    mixedRoster.map Player.alive = [true, false] ∧
    processDayVotes mixedRoster [VoteVal.target 2] =
      (mixedRoster, some ⟨2, "B", "villager", false, false⟩) := by
  refine ⟨rfl, rfl, ?_⟩
  have hvc : voteCounts [VoteVal.target 2] = [(2, 1)] := rfl
  have hs : sortVotes [(2, 1)] = [(2, 1)] := by
    simp [sortVotes]
  have hpd : processDayVotes mixedRoster [VoteVal.target 2] =
      elimFirst 2 mixedRoster := by
    unfold processDayVotes
    simp only [hvc, hs]
    rfl
  rw [hpd]
  decide

/-- The recording step of GameManager.handle_vote: on a successful lookup
of a living target the vote value is recorded; on a failed lookup nothing
is recorded. -/
def recordDayVote (players : List Player) (votes : List VoteVal)
    (targetUsername : String) : List VoteVal :=
  match findTargetByUsername players targetUsername with
  | some tp => votes ++ [VoteVal.target tp.user_id]
  | none => votes

theorem foldl_tallyStep_filter (votes : List VoteVal) :
    ∀ acc : List (Nat × Nat),
      votes.foldl tallyStep acc =
        (votes.filter (fun v => v != VoteVal.skip)).foldl tallyStep acc := by
  induction votes with
  | nil => intro acc; rfl
  | cons v vs ih =>
    intro acc
    cases v with
    | skip => simpa [tallyStep] using ih acc
    | target t => simpa [tallyStep] using ih (bump t acc)

/-- Claim C6 (amended): abstain (skip) votes are ignored entirely (the
tally only depends on non-skip entries); every eliminated player the day
resolver reports originates from the roster with their alive flag set
false, so a vote for an id outside the roster never produces an
elimination (though it is tallied and can affect the outcome, and a dead
roster player who tops the vote is re-reported eliminated); dead or
unknown vote targets are rejected at submission time, where handle_vote
refuses to record a vote whose username has no living holder. -/
theorem c6_vote_validation (players : List Player) (votes : List VoteVal) :
    (voteCounts votes =
      voteCounts (votes.filter (fun v => v != VoteVal.skip))) ∧
    (∀ p : Player, (processDayVotes players votes).2 = some p →
      ∃ q ∈ players, p = { q with alive := false }) ∧
    (∀ uname : String,
      (∀ p ∈ players, ¬(p.username = uname ∧ p.alive = true)) →
      recordDayVote players votes uname = votes) := by
  refine ⟨foldl_tallyStep_filter votes [], ?_, ?_⟩
  · intro p h
    unfold processDayVotes at h
    split at h
    · cases h
    · split at h
      · cases h
      · split at h
        · cases h
        · exact elimFirst_snd_mem _ players p h
        · split at h
          · cases h
          · exact elimFirst_snd_mem _ players p h
  · intro uname hnone
    have hfind : findTargetByUsername players uname = none := by
      unfold findTargetByUsername
      apply List.find?_eq_none.mpr
      intro p hp hcontra
      simp at hcontra
      exact hnone p hp ⟨hcontra.1, hcontra.2⟩
    unfold recordDayVote
    rw [hfind]

/-- Witness for claim C6 (amended): a skip vote changes no tally, the
eliminated player of a concrete resolution comes from the roster, and a
vote naming a username with no living holder records nothing. -/
theorem c6_vote_validation_witness :
    voteCounts [VoteVal.skip, VoteVal.target 1] =
      voteCounts ([VoteVal.skip, VoteVal.target 1].filter
        (fun v => v != VoteVal.skip)) ∧
    (∃ q ∈ pairRoster,
      (⟨1, "A", "villager", false, false⟩ : Player) = { q with alive := false }) ∧
    recordDayVote pairRoster [] "ghost" = [] := by
  refine ⟨(c6_vote_validation pairRoster [VoteVal.skip, VoteVal.target 1]).1,
    ?_, (c6_vote_validation pairRoster []).2.2 "ghost" (by decide)⟩
  apply (c6_vote_validation pairRoster [VoteVal.target 1]).2.1
  have hvc : voteCounts [VoteVal.target 1] = [(1, 1)] := rfl
  have hs : sortVotes [(1, 1)] = [(1, 1)] := by
    simp [sortVotes]
  have hpd : processDayVotes pairRoster [VoteVal.target 1] =
      elimFirst 1 pairRoster := by
    unfold processDayVotes
    simp only [hvc, hs]
    rfl
  rw [hpd]
  decide

/-- The fixed role-count table of RoleManager.assign_roles, with the
dict-lookup default for an unknown mode (every player a villager). -/
def roleCountTable (game_mode : String) (player_count : Nat) : List (String × Nat) :=
  if game_mode = "5v5" then
    [("mafia", 3), ("detective", 1), ("doctor", 1), ("villager", 5)]
  else if game_mode = "1v1" then
    [("mafia", 1), ("detective", 1)]
  else [("villager", player_count)]

/-- The expansion loop of assign_roles: roles.extend([role] * count) over
the table in insertion order. -/
def expandRoles (counts : List (String × Nat)) : List String :=
  counts.foldl (fun acc rc => acc ++ List.replicate rc.2 rc.1) []

/-- RoleManager.assign_roles, with the random.shuffle call abstracted as
an arbitrary permutation-producing function passed in: expand the mode
table, pad with the filler villager while shorter than the player count,
shuffle, and truncate to the player count. -/
def assign_roles (shuffle : List String → List String) (player_count : Nat)
    (game_mode : String) : List String :=
  (shuffle (expandRoles (roleCountTable game_mode player_count) ++
    List.replicate
      (player_count - (expandRoles (roleCountTable game_mode player_count)).length)
      "villager")).take player_count

/-- Claim C7: for every permutation-valued shuffle, every mode and player
count, the assignment has exactly player-count entries; when the player
count equals the table total (10 for 5v5, 2 for 1v1) the multiset of
assigned roles equals the mode table exactly; and whenever the player
count is at least the table total the result is the table padded with
filler villagers. -/
theorem c7_role_assignment (shuffle : List String → List String)
    (hs : ∀ l : List String, (shuffle l).Perm l)
    (player_count : Nat) (game_mode : String) :
    (assign_roles shuffle player_count game_mode).length = player_count ∧
    (player_count = 10 → game_mode = "5v5" →
      Multiset.ofList (assign_roles shuffle player_count game_mode) =
        Multiset.ofList ["mafia", "mafia", "mafia", "detective", "doctor",
          "villager", "villager", "villager", "villager", "villager"]) ∧
    (player_count = 2 → game_mode = "1v1" →
      Multiset.ofList (assign_roles shuffle player_count game_mode) =
        Multiset.ofList ["mafia", "detective"]) ∧
    ((expandRoles (roleCountTable game_mode player_count)).length ≤ player_count →
      Multiset.ofList (assign_roles shuffle player_count game_mode) =
        Multiset.ofList (expandRoles (roleCountTable game_mode player_count)) +
          Multiset.replicate
            (player_count - (expandRoles (roleCountTable game_mode player_count)).length)
            "villager") := by
  have hlenpad : (expandRoles (roleCountTable game_mode player_count) ++
      List.replicate
        (player_count - (expandRoles (roleCountTable game_mode player_count)).length)
        "villager").length =
      (expandRoles (roleCountTable game_mode player_count)).length +
        (player_count - (expandRoles (roleCountTable game_mode player_count)).length) := by
    rw [List.length_append, List.length_replicate]
  have hshuffled := hs (expandRoles (roleCountTable game_mode player_count) ++
    List.replicate
      (player_count - (expandRoles (roleCountTable game_mode player_count)).length)
      "villager")
  have hlenshuf := hshuffled.length_eq
  have hfull : (expandRoles (roleCountTable game_mode player_count)).length ≤ player_count →
      Multiset.ofList (assign_roles shuffle player_count game_mode) =
        Multiset.ofList (expandRoles (roleCountTable game_mode player_count)) +
          Multiset.replicate
            (player_count - (expandRoles (roleCountTable game_mode player_count)).length)
            "villager" := by
    intro hle
    unfold assign_roles
    have hlen : (shuffle (expandRoles (roleCountTable game_mode player_count) ++
        List.replicate
          (player_count - (expandRoles (roleCountTable game_mode player_count)).length)
          "villager")).length ≤ player_count := by
      rw [hlenshuf, hlenpad]
      omega
    rw [List.take_of_length_le hlen]
    have hmult : Multiset.ofList (shuffle (expandRoles (roleCountTable game_mode player_count) ++
        List.replicate
          (player_count - (expandRoles (roleCountTable game_mode player_count)).length)
          "villager")) =
        Multiset.ofList (expandRoles (roleCountTable game_mode player_count) ++
          List.replicate
            (player_count - (expandRoles (roleCountTable game_mode player_count)).length)
            "villager") :=
      Quot.sound hshuffled
    rw [hmult]
    rw [← Multiset.coe_add]
    rw [Multiset.coe_replicate]
  refine ⟨?_, ?_, ?_, hfull⟩
  · unfold assign_roles
    rw [List.length_take, hlenshuf, hlenpad]
    omega
  · intro hn hm
    subst hn
    subst hm
    have h4 := hfull (by decide)
    rw [h4]
    decide
  · intro hn hm
    subst hn
    subst hm
    have h4 := hfull (by decide)
    rw [h4]
    decide

/-- Witness for claim C7 with the identity permutation as the shuffle: a
5v5 assignment for 10 players has 10 entries whose multiset is exactly
3 mafia, 1 detective, 1 doctor and 5 villagers. -/
theorem c7_role_assignment_witness :
    (assign_roles id 10 "5v5").length = 10 ∧
    Multiset.ofList (assign_roles id 10 "5v5") =
      Multiset.ofList ["mafia", "mafia", "mafia", "detective", "doctor",
        "villager", "villager", "villager", "villager", "villager"] := by
  have h := c7_role_assignment id (fun l => List.Perm.refl l) 10 "5v5"
  exact ⟨h.1, h.2.1 rfl rfl⟩

/-- Claim C9, counterexample: get_role_info on an id absent from the
registry does not fail — it returns the empty role definition (the empty
Python dict), from which the accessors then read defaults. -/
theorem c9_unknown_role_counterexample :
    rolesTable "phantom" = none ∧
    get_role_info "phantom" = emptyRoleDict ∧
    emptyRoleDict.team = none ∧
    emptyRoleDict.abilities = none := by
  refine ⟨rfl, rfl, rfl, rfl⟩

/-- Claim C9 (amended): get_role_info is a pure total lookup; on an id
absent from the registry it returns the empty role definition rather than
failing, and the derived accessors return defaults: team unknown, no
abilities, not evil. -/
theorem c9_unknown_role_lookup (r : String) (h : rolesTable r = none) :
    get_role_info r = emptyRoleDict ∧
    get_role_team r = "unknown" ∧
    get_role_abilities r = [] ∧
    is_evil_role r = false := by
  refine ⟨?_, ?_, ?_, ?_⟩ <;>
    simp [get_role_info, get_role_team, get_role_abilities, is_evil_role, h,
      emptyRoleDict]

/-- Witness for claim C9 at the concrete unknown id phantom. -/
theorem c9_unknown_role_lookup_witness :
    get_role_team "phantom" = "unknown" ∧ get_role_abilities "phantom" = [] :=
  ⟨(c9_unknown_role_lookup "phantom" rfl).2.1,
   (c9_unknown_role_lookup "phantom" rfl).2.2.1⟩

/-- A persistent player record of PlayerManager (players.json entry),
restricted to the progression fields the end-of-game path touches.
Achievements are kept as their id strings. -/
structure PlayerStats where
  level : Nat := 1
  xp : Nat := 0
  coins : Nat := 100
  wins : Nat := 0
  losses : Nat := 0
  games_played : Nat := 0
  achievements : List String := []
deriving Repr, DecidableEq

/-- The PlayerManager.players dict, as a map from user id to record
(none for an unregistered id, for which every mutator is a no-op). -/
def StatsMap : Type := Nat → Option PlayerStats

/-- Point update of the players dict. -/
def updateStats (stats : StatsMap) (u : Nat) (f : PlayerStats → PlayerStats) :
    StatsMap :=
  fun v => if v = u then (stats u).map f else stats v

/-- PlayerManager.add_coins. -/
def add_coins (stats : StatsMap) (u : Nat) (amount : Nat) : StatsMap :=
  updateStats stats u (fun st => { st with coins := st.coins + amount })

/-- PlayerManager.add_achievement: append the achievement (by id) if not
already earned and credit its coin reward. -/
def add_achievement (stats : StatsMap) (u : Nat) (achId : String)
    (reward : Nat) : StatsMap :=
  updateStats stats u (fun st =>
    if achId ∈ st.achievements then st
    else { st with achievements := st.achievements ++ [achId],
                   coins := st.coins + reward })

/-- PlayerManager._check_win_achievements: first_win at 1 win (reward 50)
and win_10 at 10 wins (reward 150). -/
def check_win_achievements (stats : StatsMap) (u : Nat) : StatsMap :=
  match stats u with
  | none => stats
  | some st =>
    let s1 := if 1 ≤ st.wins then add_achievement stats u "first_win" 50 else stats
    if 10 ≤ st.wins then add_achievement s1 u "win_10" 150 else s1

/-- PlayerManager._check_level_achievements: level_5 (reward 100) and
level_10 (reward 200). -/
def check_level_achievements (stats : StatsMap) (u : Nat) : StatsMap :=
  match stats u with
  | none => stats
  | some st =>
    let s1 := if 5 ≤ st.level then add_achievement stats u "level_5" 100 else stats
    if 10 ≤ st.level then add_achievement s1 u "level_10" 200 else s1

/-- PlayerManager.add_win: increment wins and games_played, then run the
win-achievement checks. -/
def add_win (stats : StatsMap) (u : Nat) : StatsMap :=
  match stats u with
  | none => stats
  | some _ =>
    check_win_achievements
      (updateStats stats u (fun st =>
        { st with wins := st.wins + 1, games_played := st.games_played + 1 })) u

/-- PlayerManager.add_loss. -/
def add_loss (stats : StatsMap) (u : Nat) : StatsMap :=
  match stats u with
  | none => stats
  | some _ =>
    updateStats stats u (fun st =>
      { st with losses := st.losses + 1, games_played := st.games_played + 1 })

/-- The level-up loop of PlayerManager.add_xp.  The per-level XP formula
(Python float arithmetic, int(100 * ((level-1) ** 1.5) + 100)) is passed
in abstractly as f; the loop consumes f (level+1) XP per level gained,
crediting 100 * new-level bonus coins, and stops when the requirement is
not met or the formula yields 0 (the code's infinite-loop guard).  The
Bool result is the leveled_up flag. -/
def levelLoop (f : Nat → Nat) (st : PlayerStats) : PlayerStats × Bool :=
  if f (st.level + 1) = 0 then (st, false)
  else if f (st.level + 1) ≤ st.xp then
    ((levelLoop f
      { st with level := st.level + 1, xp := st.xp - f (st.level + 1),
                coins := st.coins + 100 * (st.level + 1) }).1, true)
  else (st, false)
termination_by st.xp
decreasing_by
  simp
  omega

/-- PlayerManager.add_xp: credit the XP, run the level-up loop, then the
level-achievement checks if any level was gained. -/
def add_xp (f : Nat → Nat) (stats : StatsMap) (u : Nat) (amount : Nat) :
    StatsMap :=
  match stats u with
  | none => stats
  | some st =>
    let r := levelLoop f { st with xp := st.xp + amount }
    let stats' := updateStats stats u (fun _ => r.1)
    if r.2 then check_level_achievements stats' u else stats'

/-- The session record of GameManager.games, restricted to the fields the
end-of-game path reads or writes. -/
structure Game where
  mode : String
  round : Nat
  status : String
  winner : Option String
  players : List Player
deriving Repr, DecidableEq

/-- The base_xp_reward lookup of _calculate_rewards:
GAME_SETTINGS[mode].base_xp_reward with default 50. -/
def base_xp_reward (mode : String) : Nat :=
  if mode = "5v5" then 150 else if mode = "1v1" then 75 else 50

/-- GameManager._calculate_rewards: (xp, coins) from the mode base, the
win bonus, the survival bonus and the per-round bonus. -/
def calculate_rewards (mode : String) (round : Nat) (alive won : Bool) :
    Nat × Nat :=
  let base := (base_xp_reward mode, 50)
  let afterWin := if won then (base.1 + 100, base.2 + 50) else base
  let afterAlive := if alive then (afterWin.1 + 50, afterWin.2 + 25) else afterWin
  (afterAlive.1 + round * 5, afterAlive.2)

/-- The winner-membership test of _end_game: a player is in the winners
list iff the winning side matches their alignment (jester winning only as
themselves). -/
def playerWon (winner : String) (p : Player) : Bool :=
  (winner == "villagers" && !is_evil_role p.role) ||
  (winner == "mafia" && is_evil_role p.role) ||
  (winner == "jester" && p.role == "jester")

/-- The reward-distribution loop of _end_game: for each player with a
real (nonzero, Python-truthy) user id, record the win or loss, then
credit the calculated XP and coins. -/
def distributeRewards (f : Nat → Nat) (winner : String) (g : Game)
    (stats : StatsMap) : StatsMap :=
  g.players.foldl (fun st p =>
    if p.user_id = 0 then st
    else
      let won := playerWon winner p
      let st1 := if won then add_win st p.user_id else add_loss st p.user_id
      let r := calculate_rewards g.mode g.round p.alive won
      add_coins (add_xp f st1 p.user_id r.1) p.user_id r.2) stats

/-- The mutable state the end-of-game path touches: the session and the
player-progression store. -/
structure EndState where
  game : Game
  stats : StatsMap

/-- GameManager._end_game: a second invocation for an already finished
session returns immediately; otherwise the session is marked finished
with its winner and the rewards are distributed. -/
def end_game (f : Nat → Nat) (winner : String) (s : EndState) : EndState :=
  if s.game.status == "finished" then s
  else
    { game := { s.game with status := "finished", winner := some winner },
      stats := distributeRewards f winner
        { s.game with status := "finished", winner := some winner } s.stats }

/-- Claim C8: ending a game is idempotent — after one invocation the
session status is finished, an invocation on an already finished session
changes nothing (in particular awards no XP, coins, wins or losses), and
hence a second invocation equals the first. -/
theorem c8_end_game_idempotent (f : Nat → Nat) (winner : String) (s : EndState) :
    (end_game f winner s).game.status = "finished" ∧
    (s.game.status = "finished" → end_game f winner s = s) ∧
    end_game f winner (end_game f winner s) = end_game f winner s := by
  have h2 : ∀ t : EndState, t.game.status = "finished" → end_game f winner t = t := by
    intro t ht
    unfold end_game
    rw [if_pos (beq_iff_eq.mpr ht)]
  have h1 : (end_game f winner s).game.status = "finished" := by
    by_cases h : s.game.status == "finished"
    · unfold end_game
      rw [if_pos h]
      exact eq_of_beq h
    · unfold end_game
      rw [if_neg h]
  exact ⟨h1, h2 s, h2 _ h1⟩

/-- A concrete already-finished session with an empty progression store. -/
def finishedState : EndState :=
  { game := { mode := "1v1", round := 3, status := "finished",
              winner := some "mafia", players := pairRoster },
    stats := fun _ => none }

/-- Witness for claim C8: invoking the end-of-game path on the concrete
finished session changes nothing. -/
theorem c8_end_game_idempotent_witness :
    end_game (fun _ => 100) "mafia" finishedState = finishedState :=
  (c8_end_game_idempotent (fun _ => 100) "mafia" finishedState).2.1 rfl

end MafiaBot
